import Mathlib

/-!
Shallow embedding of the mcp-defect-dojo repository (Go) for verification.

The definitions below are translated from the repository source:
  * `pkg/types/types.go` — the data model (Finding, filters, request and
    response structures, the severity enumeration);
  * `internal/defectdojo/client.go` — the HTTP client (query construction for
    `GetFindings`, the PATCH payload of `MarkFalsePositive`, the response
    struct it builds on success, and `HealthCheck`);
  * `internal/server/mcp.go` — the internal MCP tool handlers
    (`parseFilterFromParams`, `extractFindingID`, the detail and
    mark-false-positive handler control flow, `formatFindingsResponse`);
  * `pkg/mcpserver/server.go` — the public MCP tool handlers registered by
    `addDefectDojoTools` (their filter construction and output formatting).

Dynamically typed tool arguments (Go `map[string]any` decoded from JSON) are
modelled as association lists of `GoValue`; JSON numbers (Go `float64`) are
modelled as exact rationals `GoFloat` with truncating conversion to `Int`,
which matches Go `int(v)` semantics on the values relevant here. Machine
integer overflow is not modelled (values in scope are small API identifiers
and pagination counters).
-/

/-- Exact model of a JSON-decoded Go `float64` argument value: a fraction
`num / den` with a positive denominator. Conversion to Go `int` truncates
toward zero, which `Int.tdiv` implements. -/
structure GoFloat where
  num : Int
  den : Nat
  den_pos : 0 < den
deriving DecidableEq

/-- Go `int(v)` conversion of a `float64`: truncation toward zero. -/
def GoFloat.toIntTrunc (v : GoFloat) : Int :=
  Int.tdiv v.num (Int.ofNat v.den)

/-- Dynamically typed value inside a Go `map[string]any` parameter bag. JSON
decoding produces `vnum` (float64), `vstr`, `vbool`; `vint` covers a Go `int`
placed in the map by in-process callers; `vother` is any other type. -/
inductive GoValue where
  | vnum (v : GoFloat)
  | vstr (s : String)
  | vbool (b : Bool)
  | vint (n : Int)
  | vother
deriving DecidableEq

/-- A Go `map[string]any` parameter bag, as an association list (Go map keys
are unique, so first-match lookup is the map lookup). -/
def Args : Type := List (String × GoValue)

/-- Lookup `arguments[key]` with its `ok` flag, as `Option`. -/
def lookupArg (args : Args) (key : String) : Option GoValue :=
  match args with
  | [] => none
  | (k, v) :: rest => if k = key then some v else lookupArg rest key

/-- Finding structure from `pkg/types/types.go` (JSON tags: id, title,
severity, description, active, verified, false_p, test, created, modified;
the last two carry `omitempty`). -/
structure Finding where
  id : Int
  title : String
  severity : String
  description : String
  active : Bool
  verified : Bool
  falseP : Bool
  test : Int
  created : String
  modified : String
deriving DecidableEq

/-- FindingsFilter from `pkg/types/types.go`. -/
structure FindingsFilter where
  limit : Int
  activeOnly : Bool
  severity : String
  verified : Option Bool
  test : Option Int
  offset : Int
deriving DecidableEq

/-- FalsePositiveRequest from `pkg/types/types.go`. -/
structure FalsePositiveRequest where
  isFalsePositive : Bool
  justification : String
  notes : String
deriving DecidableEq

/-- FalsePositiveResponse from `pkg/types/types.go`. -/
structure FalsePositiveResponse where
  id : Int
  falseP : Bool
  justification : String
  notes : String
  message : String
deriving DecidableEq

/-- FindingsResponse from `pkg/types/types.go`. -/
structure FindingsResponse where
  count : Int
  next : Option String
  previous : Option String
  results : List Finding

/-- ValidSeverities from `pkg/types/types.go`. -/
def validSeverities : List String :=
  [("Info"), ("Low"), ("Medium"), ("High"), ("Critical")]

/-- IsValidSeverity from `pkg/types/types.go`: case-sensitive membership in
the fixed enumeration. -/
def isValidSeverity (severity : String) : Bool :=
  validSeverities.any (fun valid => severity = valid)

/-- Go `strconv.FormatBool`. -/
def goBoolString (b : Bool) : String :=
  if b then ("true") else ("false")

/-- JSON value model. Numbers are restricted to integers, which covers every
numeric field of the repository data model (Go `int` fields). -/
inductive Json where
  | jnull
  | jbool (b : Bool)
  | jint (n : Int)
  | jstr (s : String)
  | jarr (elems : List Json)
  | jobj (fields : List (String × Json))

/-- Field lookup in a JSON object (Go encodes each struct field once, so
first-match lookup is exact). -/
def jsonLookup (fields : List (String × Json)) (key : String) : Option Json :=
  match fields with
  | [] => none
  | (k, v) :: rest => if k = key then some v else jsonLookup rest key

/-- Go `encoding/json` marshalling of `types.Finding`: one member per struct
field in declaration order, keyed by the JSON tag; `created` and `modified`
carry `omitempty` and are dropped when empty. -/
def Finding.toJson (f : Finding) : Json :=
  Json.jobj
    ([(("id"), Json.jint f.id), (("title"), Json.jstr f.title),
      (("severity"), Json.jstr f.severity),
      (("description"), Json.jstr f.description),
      (("active"), Json.jbool f.active), (("verified"), Json.jbool f.verified),
      (("false_p"), Json.jbool f.falseP), (("test"), Json.jint f.test)]
     ++ (if f.created = "" then [] else [(("created"), Json.jstr f.created)])
     ++ (if f.modified = "" then [] else [(("modified"), Json.jstr f.modified)]))

/-- Go unmarshalling of a string struct field: an absent member or JSON null
leaves the zero value `""`; a string member is taken; any other type is a
decode error. -/
def decodeStringField (fields : List (String × Json)) (key : String) :
    Option String :=
  match jsonLookup fields key with
  | none => some ""
  | some Json.jnull => some ""
  | some (Json.jstr s) => some s
  | some _ => none

/-- Go unmarshalling of an `int` struct field (zero value 0). -/
def decodeIntField (fields : List (String × Json)) (key : String) :
    Option Int :=
  match jsonLookup fields key with
  | none => some 0
  | some Json.jnull => some 0
  | some (Json.jint n) => some n
  | some _ => none

/-- Go unmarshalling of a `bool` struct field (zero value `false`). -/
def decodeBoolField (fields : List (String × Json)) (key : String) :
    Option Bool :=
  match jsonLookup fields key with
  | none => some false
  | some Json.jnull => some false
  | some (Json.jbool b) => some b
  | some _ => none

/-- Go `encoding/json` unmarshalling of `types.Finding` from a JSON value:
requires an object, decodes each tagged field, fails on a type mismatch. -/
def Finding.fromJson (j : Json) : Option Finding :=
  match j with
  | Json.jobj fields => do
      let id ← decodeIntField fields ("id")
      let title ← decodeStringField fields ("title")
      let severity ← decodeStringField fields ("severity")
      let description ← decodeStringField fields ("description")
      let active ← decodeBoolField fields ("active")
      let verified ← decodeBoolField fields ("verified")
      let falseP ← decodeBoolField fields ("false_p")
      let test ← decodeIntField fields ("test")
      let created ← decodeStringField fields ("created")
      let modified ← decodeStringField fields ("modified")
      pure { id := id, title := title, severity := severity,
             description := description, active := active,
             verified := verified, falseP := falseP, test := test,
             created := created, modified := modified }
  | _ => none

/-- DefectDojo connection configuration from `internal/config/config.go`
(request timeout is not modelled; it never influences the values proved
about). -/
structure DefectDojoConfig where
  baseURL : String
  apiKey : String
  apiVersion : String

/-- GetAPIBasePath from `internal/config/config.go`. -/
def getAPIBasePath (cfg : DefectDojoConfig) : String :=
  "/api/" ++ cfg.apiVersion

/-- Query parameters built by `GetFindings` in
`internal/defectdojo/client.go`, in the order the code adds them: `limit` and
`offset` unconditionally, then `active`, `severity`, `verified`, `test` each
under its guard. -/
def getFindingsQuery (filter : FindingsFilter) : List (String × String) :=
  [(("limit"), toString filter.limit), (("offset"), toString filter.offset)]
  ++ (if filter.activeOnly then [(("active"), ("true"))] else [])
  ++ (if filter.severity ≠ "" then [(("severity"), filter.severity)] else [])
  ++ (match filter.verified with
      | some b => [(("verified"), goBoolString b)]
      | none => [])
  ++ (match filter.test with
      | some t => [(("test"), toString t)]
      | none => [])

/-- JSON body of the PATCH issued by `MarkFalsePositive` in
`internal/defectdojo/client.go`: `false_p` is the literal `true`,
`justification` echoes the request, `notes` is added only when non-empty. The
request's own `IsFalsePositive` field is never consulted. -/
def markFalsePositivePayload (request : FalsePositiveRequest) :
    List (String × Json) :=
  [(("false_p"), Json.jbool true),
   (("justification"), Json.jstr request.justification)]
  ++ (if request.notes ≠ "" then [(("notes"), Json.jstr request.notes)] else [])

/-- A PATCH request as `MarkFalsePositive` constructs it: target URL and JSON
body. -/
structure PatchCall where
  url : String
  body : List (String × Json)

/-- The PATCH request sent by `MarkFalsePositive` for a given configuration,
finding id and request. -/
def markFalsePositiveCall (cfg : DefectDojoConfig) (findingID : Int)
    (request : FalsePositiveRequest) : PatchCall :=
  { url := cfg.baseURL ++ getAPIBasePath cfg ++ "/findings/"
       ++ toString findingID ++ "/",
    body := markFalsePositivePayload request }

/-- The `FalsePositiveResponse` literal `MarkFalsePositive` returns on a 200
response, built from the decoded finding: only `ID`, `FalseP` and a fixed
`Message` are populated; `Justification` and `Notes` keep their zero value. -/
def markFalsePositiveResult (finding : Finding) : FalsePositiveResponse :=
  { id := finding.id, falseP := finding.falseP, justification := "",
    notes := "", message := "Finding successfully marked as false positive" }

/-- Outcome of the single HTTP exchange a client method performs: request
construction failure, transport-level failure (no response), or a response
with a status code and body. -/
inductive HTTPOutcome where
  | reqError (message : String)
  | transportError (message : String)
  | response (status : Nat) (body : String)

/-- HealthCheck from `internal/defectdojo/client.go`: a total function from
the configuration and the HTTP outcome to a `(healthy, message)` pair, one
branch per return statement of the Go method. -/
def healthCheck (cfg : DefectDojoConfig) (outcome : HTTPOutcome) :
    Bool × String :=
  match outcome with
  | HTTPOutcome.reqError e => (false, "Failed to create request: " ++ e)
  | HTTPOutcome.transportError e =>
      (false, "Connection failed to " ++ cfg.baseURL ++ ": " ++ e)
  | HTTPOutcome.response status body =>
      if status = 200 then
        (true, "Successfully connected to DefectDojo at " ++ cfg.baseURL
           ++ "\nAPI Version: " ++ cfg.apiVersion ++ "\nStatus Code: "
           ++ toString status)
      else
        (false, "DefectDojo responded with status " ++ toString status
           ++ ": " ++ body)

/-- Digit run parser backing the `strconv.Atoi` model: all characters must be
decimal digits and at least one must be present. -/
def digitsToNat : List Char → Option Nat
  | [] => none
  | cs => go cs 0
where
  go : List Char → Nat → Option Nat
    | [], acc => some acc
    | c :: rest, acc =>
        if ('0' ≤ c ∧ c ≤ '9') then
          go rest (acc * 10 + (c.toNat - Char.toNat '0'))
        else none

/-- Go `strconv.Atoi`: optional single sign followed by one or more decimal
digits; anything else is an error. The 64-bit range error is not modelled
(the ids in scope are small). -/
def goAtoi (s : String) : Option Int :=
  match s.data with
  | [] => none
  | c :: rest =>
      if c = '-' then (digitsToNat rest).map (fun n => -(n : Int))
      else if c = '+' then (digitsToNat rest).map (fun n => (n : Int))
      else (digitsToNat (c :: rest)).map (fun n => (n : Int))

/-- extractFindingID from `internal/server/mcp.go`: a type switch over the
`finding_id` argument. A positive `float64` is truncated to `int`; a string
is parsed with `strconv.Atoi` and accepted when positive; a positive Go `int`
is taken as is; every other case yields 0. -/
def extractFindingID (args : Args) : Int :=
  match lookupArg args ("finding_id") with
  | some (GoValue.vnum v) => if 0 < v.num then v.toIntTrunc else 0
  | some (GoValue.vstr s) =>
      match goAtoi s with
      | some id => if 0 < id then id else 0
      | none => 0
  | some (GoValue.vint n) => if 0 < n then n else 0
  | _ => 0

/-- Defaults of `parseFilterFromParams` in `internal/server/mcp.go`. -/
def defaultInternalFilter : FindingsFilter :=
  { limit := 20, activeOnly := true, severity := "", verified := none,
    test := none, offset := 0 }

/-- The `limit` block of `parseFilterFromParams`: present float64 overwrites
the default via `int` truncation; any other case keeps the filter. -/
def applyLimitParam (args : Args) (filter : FindingsFilter) : FindingsFilter :=
  match lookupArg args ("limit") with
  | some (GoValue.vnum v) => { filter with limit := v.toIntTrunc }
  | _ => filter

/-- The `offset` block of `parseFilterFromParams`. -/
def applyOffsetParam (args : Args) (filter : FindingsFilter) : FindingsFilter :=
  match lookupArg args ("offset") with
  | some (GoValue.vnum v) => { filter with offset := v.toIntTrunc }
  | _ => filter

/-- The `active_only` block of `parseFilterFromParams`. -/
def applyActiveOnlyParam (args : Args) (filter : FindingsFilter) :
    FindingsFilter :=
  match lookupArg args ("active_only") with
  | some (GoValue.vbool b) => { filter with activeOnly := b }
  | _ => filter

/-- The `severity` block of `parseFilterFromParams`: taken only when the
argument is a string accepted by `IsValidSeverity`. -/
def applySeverityParam (args : Args) (filter : FindingsFilter) :
    FindingsFilter :=
  match lookupArg args ("severity") with
  | some (GoValue.vstr s) =>
      if isValidSeverity s then { filter with severity := s } else filter
  | _ => filter

/-- The `verified` block of `parseFilterFromParams`. -/
def applyVerifiedParam (args : Args) (filter : FindingsFilter) :
    FindingsFilter :=
  match lookupArg args ("verified") with
  | some (GoValue.vbool b) => { filter with verified := some b }
  | _ => filter

/-- The `test` block of `parseFilterFromParams`. -/
def applyTestParam (args : Args) (filter : FindingsFilter) : FindingsFilter :=
  match lookupArg args ("test") with
  | some (GoValue.vnum v) => { filter with test := some v.toIntTrunc }
  | _ => filter

/-- parseFilterFromParams from `internal/server/mcp.go`: the six parameter
blocks applied in source order to the default filter. -/
def parseFilterFromParams (args : Args) : FindingsFilter :=
  applyTestParam args (applyVerifiedParam args (applySeverityParam args
    (applyActiveOnlyParam args (applyOffsetParam args
      (applyLimitParam args defaultInternalFilter)))))

/-- What a detail or mark-false-positive handler does with its argument bag
before any formatting: reject locally, or call the adapter with an id. -/
inductive HandlerAction where
  | validationError (message : String)
  | adapterCall (findingID : Int)
deriving DecidableEq

/-- Validation phase of the `get_finding_detail` handler in
`internal/server/mcp.go`: id 0 is rejected with the fixed error text before
the client is invoked; otherwise the adapter is called with the id. -/
def getFindingDetailHandlerAction (args : Args) : HandlerAction :=
  let findingID := extractFindingID args
  if findingID = 0 then
    HandlerAction.validationError
      "Error: finding_id parameter is required and must be a positive integer"
  else HandlerAction.adapterCall findingID

/-- The `FalsePositiveRequest` the `mark_finding_false_positive` handler in
`internal/server/mcp.go` builds: fixed defaults, then non-empty string
arguments override justification and notes. -/
def markFPRequestFromArgs (args : Args) : FalsePositiveRequest :=
  let base : FalsePositiveRequest :=
    { isFalsePositive := true,
      justification := "Marked as false positive via MCP tool", notes := "" }
  let withJ :=
    match lookupArg args ("justification") with
    | some (GoValue.vstr j) =>
        if j ≠ "" then { base with justification := j } else base
    | _ => base
  match lookupArg args ("notes") with
  | some (GoValue.vstr n) => if n ≠ "" then { withJ with notes := n } else withJ
  | _ => withJ

/-- Validation phase of the `mark_finding_false_positive` handler in
`internal/server/mcp.go`: identical id gate, same error text. -/
def markFalsePositiveHandlerAction (args : Args) : HandlerAction :=
  let findingID := extractFindingID args
  if findingID = 0 then
    HandlerAction.validationError
      "Error: finding_id parameter is required and must be a positive integer"
  else HandlerAction.adapterCall findingID

/-- One entry of `formatFindingsResponse` in `internal/server/mcp.go`. -/
def formatFindingEntry (f : Finding) : String :=
  toString f.id ++ ". [" ++ f.severity ++ "] " ++ f.title
  ++ (if f.verified then " (Verified)" else "") ++ "\n"
  ++ "   Status: " ++ (if f.active then ("Active") else ("Inactive"))
  ++ " | Test: " ++ toString f.test ++ "\n"
  ++ "   " ++ f.description ++ "\n\n"

/-- The display loop of `formatFindingsResponse`: entries are emitted with a
running index; once the index reaches 10 the overflow note is emitted and the
loop breaks. `total` is the length of the full result list. -/
def internalEntriesFrom (total : Nat) : Nat → List Finding → String
  | _, [] => ""
  | i, f :: rest =>
      if 10 ≤ i then "... and " ++ toString (total - 10) ++ " more findings\n"
      else formatFindingEntry f ++ internalEntriesFrom total (i + 1) rest

/-- formatFindingsResponse from `internal/server/mcp.go`. -/
def formatFindingsResponse (findings : FindingsResponse) : String :=
  if findings.count = 0 then
    "No findings found matching the specified criteria."
  else
    "Found " ++ toString findings.count ++ " findings (showing first "
    ++ toString findings.results.length ++ "):\n\n"
    ++ internalEntriesFrom findings.results.length 0 findings.results
    ++ (match findings.next with
        | some _ =>
            "Note: More results available. Use \x27offset\x27 parameter to paginate.\n"
        | none => "")

/-- mcp-go `CallToolRequest.GetInt` as used by `pkg/mcpserver/server.go`:
numeric argument values (JSON float64 or Go int) convert to `int`, anything
else yields the supplied default. -/
def getIntArg (args : Args) (key : String) (dflt : Int) : Int :=
  match lookupArg args key with
  | some (GoValue.vnum v) => v.toIntTrunc
  | some (GoValue.vint n) => n
  | _ => dflt

/-- mcp-go `CallToolRequest.GetString`. -/
def getStringArg (args : Args) (key : String) (dflt : String) : String :=
  match lookupArg args key with
  | some (GoValue.vstr s) => s
  | _ => dflt

/-- mcp-go `CallToolRequest.GetBool`. -/
def getBoolArg (args : Args) (key : String) (dflt : Bool) : Bool :=
  match lookupArg args key with
  | some (GoValue.vbool b) => b
  | _ => dflt

/-- The `FindingsFilter` built by the `get_defectdojo_findings` handler in
`pkg/mcpserver/server.go` (`addDefectDojoTools`): defaults limit 10, offset
0, active_only true; the severity string is passed through with no
validation; `test` is set when the integer argument is non-zero; `verified`
is never set by this handler. -/
def pkgListFilter (args : Args) : FindingsFilter :=
  let test := getIntArg args ("test") 0
  { limit := getIntArg args ("limit") 10,
    offset := getIntArg args ("offset") 0,
    activeOnly := getBoolArg args ("active_only") true,
    severity := getStringArg args ("severity") "",
    verified := none,
    test := if test ≠ 0 then some test else none }

/-- One entry of the findings list formatting in the
`get_defectdojo_findings` handler of `pkg/mcpserver/server.go`; `idx` is the
zero-based loop index, printed as `idx + 1`. -/
def pkgFindingEntry (idx : Nat) (f : Finding) : String :=
  toString (idx + 1) ++ ". [" ++ f.severity ++ "] " ++ f.title ++ " (ID: "
  ++ toString f.id ++ ")\n"
  ++ "   Active: " ++ goBoolString f.active ++ ", Verified: "
  ++ goBoolString f.verified ++ ", False Positive: " ++ goBoolString f.falseP
  ++ "\n"
  ++ (if f.description ≠ "" then "   Description: " ++ f.description ++ "\n"
      else "")
  ++ "\n"

/-- The entry loop of the `get_defectdojo_findings` handler in
`pkg/mcpserver/server.go` (no truncation at 10 in this handler). -/
def pkgEntriesFrom : Nat → List Finding → String
  | _, [] => ""
  | i, f :: rest => pkgFindingEntry i f ++ pkgEntriesFrom (i + 1) rest

/-- Result text of the `get_defectdojo_findings` handler in
`pkg/mcpserver/server.go`. -/
def formatFindingsResultPkg (response : FindingsResponse) : String :=
  "Found " ++ toString response.count ++ " findings (showing "
  ++ toString response.results.length ++ "):\n\n"
  ++ pkgEntriesFrom 0 response.results

/-- Confirmation text of the `mark_finding_false_positive` handler in
`pkg/mcpserver/server.go`, built from the adapter's response: the
justification line is printed unconditionally, notes and message lines only
when non-empty. -/
def formatMarkFalsePositiveText (response : FalsePositiveResponse) : String :=
  "Successfully marked finding " ++ toString response.id
  ++ " as false positive:\n\n"
  ++ "False Positive: " ++ goBoolString response.falseP ++ "\n"
  ++ "Justification: " ++ response.justification ++ "\n"
  ++ (if response.notes ≠ "" then "Notes: " ++ response.notes ++ "\n" else "")
  ++ (if response.message ≠ "" then "Message: " ++ response.message ++ "\n"
      else "")

/-- A query parameter list carries a value for `key`. -/
def queryHas (params : List (String × String)) (key : String) : Prop :=
  ∃ v, (key, v) ∈ params

/-- Concrete finding used to evaluate the formatters on explicit input. -/
def exampleFindingOne : Finding :=
  { id := 101, title := "SQL Injection in Login", severity := "High",
    description := "SQL injection in the authentication endpoint",
    active := true, verified := true, falseP := false, test := 11,
    created := "", modified := "" }

/-- Second concrete finding for the two-element list scenario. -/
def exampleFindingTwo : Finding :=
  { id := 102, title := "XSS in Search", severity := "Medium",
    description := "Reflected XSS in the search box", active := true,
    verified := false, falseP := false, test := 12, created := "",
    modified := "" }

/-- Concrete list response with count 2 and two findings. -/
def exampleListResponse : FindingsResponse :=
  { count := 2, next := none, previous := none,
    results := [exampleFindingOne, exampleFindingTwo] }

/-- Concrete mark-false-positive request carrying a caller justification and
notes. -/
def exampleFPRequest : FalsePositiveRequest :=
  { isFalsePositive := true,
    justification := "Reviewed with the security team", notes := "duplicate" }

/-- The float64 value 1.9 (exactly representable reasoning is irrelevant
here: any representation with the same truncation behaves identically). -/
def onePointNine : GoFloat := ⟨19, 10, by decide⟩

/-- The float64 value -5. -/
def negFiveFloat : GoFloat := ⟨-5, 1, Nat.one_pos⟩

/-- Character-exact check that `s` begins with `p`. -/
def strStartsWith (p s : String) : Bool :=
  List.isPrefixOf p.data s.data

theorem strChunk {a b c : String} (h : a ++ b = c) (s : String) :
    a ++ (b ++ s) = c ++ s := by
  rw [← String.append_assoc, h]

theorem queryHas_limit_always (filter : FindingsFilter) :
    queryHas (getFindingsQuery filter) ("limit") :=
  ⟨toString filter.limit, by simp [getFindingsQuery]⟩

theorem queryHas_offset_always (filter : FindingsFilter) :
    queryHas (getFindingsQuery filter) ("offset") :=
  ⟨toString filter.offset, by simp [getFindingsQuery]⟩

theorem queryHas_active_iff (filter : FindingsFilter) :
    queryHas (getFindingsQuery filter) ("active") ↔ filter.activeOnly = true := by
  by_cases hs : filter.severity = "" <;>
  by_cases ha : filter.activeOnly <;>
  rcases hv : filter.verified with _ | b <;>
  rcases ht : filter.test with _ | t <;>
  simp [getFindingsQuery, queryHas, hs, ha, hv, ht]

theorem queryHas_severity_iff (filter : FindingsFilter) :
    queryHas (getFindingsQuery filter) ("severity") ↔ filter.severity ≠ "" := by
  by_cases hs : filter.severity = "" <;>
  by_cases ha : filter.activeOnly <;>
  rcases hv : filter.verified with _ | b <;>
  rcases ht : filter.test with _ | t <;>
  simp [getFindingsQuery, queryHas, hs, ha, hv, ht]

theorem queryHas_verified_iff (filter : FindingsFilter) :
    queryHas (getFindingsQuery filter) ("verified") ↔ filter.verified ≠ none := by
  by_cases hs : filter.severity = "" <;>
  by_cases ha : filter.activeOnly <;>
  rcases hv : filter.verified with _ | b <;>
  rcases ht : filter.test with _ | t <;>
  simp [getFindingsQuery, queryHas, hs, ha, hv, ht]

theorem queryHas_test_iff (filter : FindingsFilter) :
    queryHas (getFindingsQuery filter) ("test") ↔ filter.test ≠ none := by
  by_cases hs : filter.severity = "" <;>
  by_cases ha : filter.activeOnly <;>
  rcases hv : filter.verified with _ | b <;>
  rcases ht : filter.test with _ | t <;>
  simp [getFindingsQuery, queryHas, hs, ha, hv, ht]

theorem applyLimitParam_severity (args : Args) (f : FindingsFilter) :
    (applyLimitParam args f).severity = f.severity := by
  unfold applyLimitParam; split <;> rfl

theorem applyOffsetParam_severity (args : Args) (f : FindingsFilter) :
    (applyOffsetParam args f).severity = f.severity := by
  unfold applyOffsetParam; split <;> rfl

theorem applyActiveOnlyParam_severity (args : Args) (f : FindingsFilter) :
    (applyActiveOnlyParam args f).severity = f.severity := by
  unfold applyActiveOnlyParam; split <;> rfl

theorem applyVerifiedParam_severity (args : Args) (f : FindingsFilter) :
    (applyVerifiedParam args f).severity = f.severity := by
  unfold applyVerifiedParam; split <;> rfl

theorem applyTestParam_severity (args : Args) (f : FindingsFilter) :
    (applyTestParam args f).severity = f.severity := by
  unfold applyTestParam; split <;> rfl

theorem applySeverityParam_invalid (args : Args) (f : FindingsFilter)
    (s : String) (h : lookupArg args ("severity") = some (GoValue.vstr s))
    (hinv : isValidSeverity s = false) :
    applySeverityParam args f = f := by
  unfold applySeverityParam; rw [h]; simp [hinv]

theorem parseFilter_severity_invalid (args : Args) (s : String)
    (h : lookupArg args ("severity") = some (GoValue.vstr s))
    (hinv : isValidSeverity s = false) :
    (parseFilterFromParams args).severity = "" := by
  unfold parseFilterFromParams
  rw [applyTestParam_severity, applyVerifiedParam_severity,
    applySeverityParam_invalid args _ s h hinv, applyActiveOnlyParam_severity,
    applyOffsetParam_severity, applyLimitParam_severity]
  rfl

theorem applyOffsetParam_limit (args : Args) (f : FindingsFilter) :
    (applyOffsetParam args f).limit = f.limit := by
  unfold applyOffsetParam; split <;> rfl

theorem applyActiveOnlyParam_limit (args : Args) (f : FindingsFilter) :
    (applyActiveOnlyParam args f).limit = f.limit := by
  unfold applyActiveOnlyParam; split <;> rfl

theorem applySeverityParam_limit (args : Args) (f : FindingsFilter) :
    (applySeverityParam args f).limit = f.limit := by
  unfold applySeverityParam
  split <;> first | rfl | (split <;> rfl)

theorem applyVerifiedParam_limit (args : Args) (f : FindingsFilter) :
    (applyVerifiedParam args f).limit = f.limit := by
  unfold applyVerifiedParam; split <;> rfl

theorem applyTestParam_limit (args : Args) (f : FindingsFilter) :
    (applyTestParam args f).limit = f.limit := by
  unfold applyTestParam; split <;> rfl

theorem applyLimitParam_offset (args : Args) (f : FindingsFilter) :
    (applyLimitParam args f).offset = f.offset := by
  unfold applyLimitParam; split <;> rfl

theorem applyActiveOnlyParam_offset (args : Args) (f : FindingsFilter) :
    (applyActiveOnlyParam args f).offset = f.offset := by
  unfold applyActiveOnlyParam; split <;> rfl

theorem applySeverityParam_offset (args : Args) (f : FindingsFilter) :
    (applySeverityParam args f).offset = f.offset := by
  unfold applySeverityParam
  split <;> first | rfl | (split <;> rfl)

theorem applyVerifiedParam_offset (args : Args) (f : FindingsFilter) :
    (applyVerifiedParam args f).offset = f.offset := by
  unfold applyVerifiedParam; split <;> rfl

theorem applyTestParam_offset (args : Args) (f : FindingsFilter) :
    (applyTestParam args f).offset = f.offset := by
  unfold applyTestParam; split <;> rfl

theorem parseFilter_limit_eq (args : Args) :
    (parseFilterFromParams args).limit =
      (applyLimitParam args defaultInternalFilter).limit := by
  unfold parseFilterFromParams
  rw [applyTestParam_limit, applyVerifiedParam_limit, applySeverityParam_limit,
    applyActiveOnlyParam_limit, applyOffsetParam_limit]

theorem parseFilter_offset_eq (args : Args) :
    (parseFilterFromParams args).offset =
      (applyOffsetParam args (applyLimitParam args defaultInternalFilter)).offset := by
  unfold parseFilterFromParams
  rw [applyTestParam_offset, applyVerifiedParam_offset,
    applySeverityParam_offset, applyActiveOnlyParam_offset]

theorem applyLimitParam_absent (args : Args) (f : FindingsFilter)
    (h : lookupArg args ("limit") = none) : applyLimitParam args f = f := by
  unfold applyLimitParam; rw [h]

theorem applyOffsetParam_absent (args : Args) (f : FindingsFilter)
    (h : lookupArg args ("offset") = none) : applyOffsetParam args f = f := by
  unfold applyOffsetParam; rw [h]

theorem applyLimitParam_num (args : Args) (f : FindingsFilter) (v : GoFloat)
    (h : lookupArg args ("limit") = some (GoValue.vnum v)) :
    (applyLimitParam args f).limit = v.toIntTrunc := by
  unfold applyLimitParam; rw [h]

theorem applyOffsetParam_num (args : Args) (f : FindingsFilter) (v : GoFloat)
    (h : lookupArg args ("offset") = some (GoValue.vnum v)) :
    (applyOffsetParam args f).offset = v.toIntTrunc := by
  unfold applyOffsetParam; rw [h]

/-- C1: for every configuration, finding id and FalsePositiveRequest —
whatever its IsFalsePositive field holds — the JSON body of the PATCH built
by MarkFalsePositive carries `false_p` equal to the literal `true`. -/
theorem markFalsePositive_body_false_p_always_true (cfg : DefectDojoConfig)
    (findingID : Int) (request : FalsePositiveRequest) :
    jsonLookup (markFalsePositiveCall cfg findingID request).body ("false_p") =
      some (Json.jbool true) := by
  simp [markFalsePositiveCall, markFalsePositivePayload, jsonLookup]

/-- C6: the query string GetFindings builds always carries `limit` and
`offset`, and carries `active`, `severity`, `verified`, `test` exactly when
the corresponding optional filter field is set. -/
theorem getFindingsQuery_params_iff (filter : FindingsFilter) :
    queryHas (getFindingsQuery filter) ("limit")
    ∧ queryHas (getFindingsQuery filter) ("offset")
    ∧ (queryHas (getFindingsQuery filter) ("active") ↔ filter.activeOnly = true)
    ∧ (queryHas (getFindingsQuery filter) ("severity") ↔ filter.severity ≠ "")
    ∧ (queryHas (getFindingsQuery filter) ("verified") ↔ filter.verified ≠ none)
    ∧ (queryHas (getFindingsQuery filter) ("test") ↔ filter.test ≠ none) :=
  ⟨queryHas_limit_always filter, queryHas_offset_always filter,
   queryHas_active_iff filter, queryHas_severity_iff filter,
   queryHas_verified_iff filter, queryHas_test_iff filter⟩

/-- C9: encoding any Finding to JSON and decoding the result yields the
original value in every field; the string fields range over all Unicode
strings, control characters and non-ASCII text included. -/
theorem finding_json_round_trip (f : Finding) :
    Finding.fromJson (Finding.toJson f) = some f := by
  obtain ⟨i, t, sv, d, a, vf, fp, ts, cr, mo⟩ := f
  by_cases hc : cr = "" <;> by_cases hm : mo = "" <;>
    simp [Finding.toJson, Finding.fromJson, hc, hm, decodeIntField,
      decodeStringField, decodeBoolField, jsonLookup]

/-- C5: HealthCheck is a total function to a (healthy, message) pair; it is
healthy exactly on an HTTP 200 response, and on any non-200 response the
failure message ends with the raw response body. -/
theorem healthCheck_status_and_body (cfg : DefectDojoConfig)
    (outcome : HTTPOutcome) :
    ((healthCheck cfg outcome).1 = true ↔
      ∃ body, outcome = HTTPOutcome.response 200 body)
    ∧ (∀ status body, outcome = HTTPOutcome.response status body →
        status ≠ 200 → ∃ p, (healthCheck cfg outcome).2 = p ++ body) := by
  constructor
  · constructor
    · intro h
      cases outcome with
      | reqError e => simp [healthCheck] at h
      | transportError e => simp [healthCheck] at h
      | response status body =>
          by_cases hs : status = 200
          · exact ⟨body, by rw [hs]⟩
          · simp [healthCheck, hs] at h
    · rintro ⟨body, rfl⟩
      simp [healthCheck]
  · rintro status body rfl hne
    exact ⟨"DefectDojo responded with status " ++ toString status ++ ": ",
      by simp [healthCheck, hne, String.append_assoc]⟩

/-- Witness for C5 at a concrete configuration and a concrete HTTP 500
response: the failure message ends with the raw body. -/
theorem healthCheck_status_and_body_witness :
    ∃ p, (healthCheck ⟨"http://localhost:8080", "", "v2"⟩
        (HTTPOutcome.response 500 "Internal Server Error")).2 =
      p ++ "Internal Server Error" :=
  (healthCheck_status_and_body ⟨"http://localhost:8080", "", "v2"⟩
      (HTTPOutcome.response 500 "Internal Server Error")).2
    500 "Internal Server Error" rfl (by decide)

/-- C3: when the `finding_id` argument is the number 0 (float64 or Go int) or
a string `strconv.Atoi` cannot parse, both the detail handler and the
mark-false-positive handler of `internal/server/mcp.go` stop with the fixed
validation error and never reach the adapter call. -/
theorem invalid_finding_id_rejected_before_adapter (args : Args) (v : GoValue)
    (h : lookupArg args ("finding_id") = some v)
    (hz : (∃ g, v = GoValue.vnum g ∧ g.num = 0) ∨ v = GoValue.vint 0
      ∨ (∃ s, v = GoValue.vstr s ∧ goAtoi s = none)
      ∨ (∃ s, v = GoValue.vstr s ∧ goAtoi s = some 0)) :
    getFindingDetailHandlerAction args = HandlerAction.validationError
      "Error: finding_id parameter is required and must be a positive integer"
    ∧ markFalsePositiveHandlerAction args = HandlerAction.validationError
      "Error: finding_id parameter is required and must be a positive integer" := by
  have hid : extractFindingID args = 0 := by
    unfold extractFindingID
    rw [h]
    rcases hz with ⟨g, rfl, hg⟩ | rfl | ⟨s, rfl, hs⟩ | ⟨s, rfl, hs⟩
    · simp [hg]
    · simp
    · simp [hs]
    · simp [hs]
  constructor
  · simp [getFindingDetailHandlerAction, hid]
  · simp [markFalsePositiveHandlerAction, hid]

/-- Witness for C3: the concrete bag mapping `finding_id` to the non-numeric
string `abc` is rejected by both handlers. -/
theorem invalid_finding_id_rejected_before_adapter_witness :
    getFindingDetailHandlerAction [(("finding_id"), GoValue.vstr ("abc"))] =
      HandlerAction.validationError
        "Error: finding_id parameter is required and must be a positive integer"
    ∧ markFalsePositiveHandlerAction [(("finding_id"), GoValue.vstr ("abc"))] =
      HandlerAction.validationError
        "Error: finding_id parameter is required and must be a positive integer" :=
  invalid_finding_id_rejected_before_adapter
    [(("finding_id"), GoValue.vstr ("abc"))] (GoValue.vstr ("abc")) (by decide)
    (Or.inr (Or.inr (Or.inl ⟨("abc"), rfl, by decide⟩)))

/-- C2 counterexample: the `get_defectdojo_findings` handler of
`pkg/mcpserver/server.go` forwards the invalid severity `critical`
(lowercase) into the upstream query string unvalidated. -/
theorem severity_critical_reaches_query_pkg :
    (("severity"), ("critical")) ∈
      getFindingsQuery (pkgListFilter [(("severity"), GoValue.vstr ("critical"))]) := by
  decide

/-- C2 amended: only the internal server's list handler validates severity —
an invalid severity argument is ignored there and never reaches the query
string; the pkg/mcpserver list handler passes any non-empty severity string
through to the query string. -/
theorem severity_validation_split (args : Args) (s : String)
    (h : lookupArg args ("severity") = some (GoValue.vstr s))
    (hinv : isValidSeverity s = false) :
    ¬ queryHas (getFindingsQuery (parseFilterFromParams args)) ("severity")
    ∧ (s ≠ "" → queryHas (getFindingsQuery (pkgListFilter args)) ("severity")) := by
  constructor
  · intro hq
    rw [queryHas_severity_iff] at hq
    exact hq (parseFilter_severity_invalid args s h hinv)
  · intro hs
    rw [queryHas_severity_iff]
    have hp : (pkgListFilter args).severity = s := by
      simp [pkgListFilter, getStringArg, h]
    rw [hp]
    exact hs

/-- Witness for C2 amended at the concrete invalid severity `critical`. -/
theorem severity_validation_split_witness :
    ¬ queryHas
        (getFindingsQuery
          (parseFilterFromParams [(("severity"), GoValue.vstr ("critical"))]))
        ("severity")
    ∧ (("critical" : String) ≠ "" → queryHas
        (getFindingsQuery (pkgListFilter [(("severity"), GoValue.vstr ("critical"))]))
        ("severity")) :=
  severity_validation_split [(("severity"), GoValue.vstr ("critical"))]
    ("critical") (by decide) (by decide)

/-- C4 counterexample: for a successful call with a concrete request carrying
a justification and notes, the FalsePositiveResponse built by
MarkFalsePositive does not contain them (both fields are empty), and the
pkg/mcpserver confirmation prints an empty justification line and no notes
line. -/
theorem fp_result_drops_justification_and_notes :
    (markFalsePositiveResult exampleFindingOne).justification ≠
      exampleFPRequest.justification
    ∧ (markFalsePositiveResult exampleFindingOne).notes ≠ exampleFPRequest.notes
    ∧ formatMarkFalsePositiveText (markFalsePositiveResult exampleFindingOne) =
      "Successfully marked finding 101 as false positive:\n\nFalse Positive: false\nJustification: \nMessage: Finding successfully marked as false positive\n" := by
  decide

/-- C4 amended: the successful MarkFalsePositive result echoes the finding's
id and false-positive flag and a fixed confirmation message, but its
justification and notes fields are always empty, so the pkg/mcpserver
handler's confirmation shows an empty justification line and omits the notes
line. -/
theorem fp_result_fields_and_confirmation (finding : Finding) :
    (markFalsePositiveResult finding).id = finding.id
    ∧ (markFalsePositiveResult finding).falseP = finding.falseP
    ∧ (markFalsePositiveResult finding).message =
        "Finding successfully marked as false positive"
    ∧ (markFalsePositiveResult finding).justification = ""
    ∧ (markFalsePositiveResult finding).notes = ""
    ∧ formatMarkFalsePositiveText (markFalsePositiveResult finding) =
        "Successfully marked finding " ++ toString finding.id
        ++ " as false positive:\n\nFalse Positive: "
        ++ goBoolString finding.falseP
        ++ "\nJustification: \nMessage: Finding successfully marked as false positive\n" := by
  refine ⟨rfl, rfl, rfl, rfl, rfl, ?_⟩
  simp [formatMarkFalsePositiveText, markFalsePositiveResult,
    String.append_assoc, String.empty_append]

/-- C7 counterexample: a negative float64 limit passes straight through
`parseFilterFromParams`, so the constructed filter violates non-negativity. -/
theorem negative_limit_passes_through :
    (parseFilterFromParams [(("limit"), GoValue.vnum negFiveFloat)]).limit = -5
    ∧ (parseFilterFromParams [(("limit"), GoValue.vnum negFiveFloat)]).limit < 0 := by
  decide

/-- C7 amended: limit and offset take the fixed defaults when their
parameters are absent (internal handler 20 and 0, pkg handler 10 and 0), but
a numeric argument is truncated and passed through with no sign check, so
negative values reach the filter. -/
theorem filter_defaults_when_absent (args : Args) :
    (lookupArg args ("limit") = none →
      (parseFilterFromParams args).limit = 20 ∧ (pkgListFilter args).limit = 10)
    ∧ (lookupArg args ("offset") = none →
      (parseFilterFromParams args).offset = 0 ∧ (pkgListFilter args).offset = 0)
    ∧ (∀ v : GoFloat, lookupArg args ("limit") = some (GoValue.vnum v) →
      (parseFilterFromParams args).limit = v.toIntTrunc)
    ∧ (∀ v : GoFloat, lookupArg args ("offset") = some (GoValue.vnum v) →
      (parseFilterFromParams args).offset = v.toIntTrunc) := by
  refine ⟨fun hl => ⟨?_, ?_⟩, fun ho => ⟨?_, ?_⟩, fun v hv => ?_, fun v hv => ?_⟩
  · rw [parseFilter_limit_eq, applyLimitParam_absent args _ hl]; rfl
  · simp [pkgListFilter, getIntArg, hl]
  · rw [parseFilter_offset_eq, applyOffsetParam_absent args _ ho,
      applyLimitParam_offset]
    rfl
  · simp [pkgListFilter, getIntArg, ho]
  · rw [parseFilter_limit_eq, applyLimitParam_num args _ v hv]
  · rw [parseFilter_offset_eq, applyOffsetParam_num args _ v hv]

/-- Witness for C7 amended: the empty bag takes the defaults, and a concrete
negative limit is passed through truncated. -/
theorem filter_defaults_when_absent_witness :
    ((parseFilterFromParams []).limit = 20 ∧ (pkgListFilter []).limit = 10)
    ∧ (parseFilterFromParams [(("limit"), GoValue.vnum negFiveFloat)]).limit =
      negFiveFloat.toIntTrunc :=
  ⟨(filter_defaults_when_absent []).1 rfl,
   (filter_defaults_when_absent
       [(("limit"), GoValue.vnum negFiveFloat)]).2.2.1 negFiveFloat (by decide)⟩

/-- C8 counterexample: on a concrete response with count 2 and two findings,
the internal list handler's output does not begin with the claimed exact text
(its header says `showing first 2`). -/
theorem internal_list_format_not_showing_prefix :
    strStartsWith ("Found 2 findings (showing 2):")
      (formatFindingsResponse exampleListResponse) = false := by
  decide

/-- C8 amended: for any response with count 2 and two findings, the
pkg/mcpserver list handler's output begins with the exact text
`Found 2 findings (showing 2):` followed by one numbered line per finding,
while the internal handler's output begins
`Found 2 findings (showing first 2):`. -/
theorem list_format_two_findings (f1 f2 : Finding) (next prev : Option String) :
    formatFindingsResultPkg ⟨2, next, prev, [f1, f2]⟩ =
      "Found 2 findings (showing 2):\n\n"
      ++ ("1. [" ++ f1.severity ++ "] " ++ f1.title ++ " (ID: "
          ++ toString f1.id ++ ")\n"
          ++ "   Active: " ++ goBoolString f1.active ++ ", Verified: "
          ++ goBoolString f1.verified ++ ", False Positive: "
          ++ goBoolString f1.falseP ++ "\n"
          ++ (if f1.description ≠ "" then
                "   Description: " ++ f1.description ++ "\n" else "")
          ++ "\n")
      ++ ("2. [" ++ f2.severity ++ "] " ++ f2.title ++ " (ID: "
          ++ toString f2.id ++ ")\n"
          ++ "   Active: " ++ goBoolString f2.active ++ ", Verified: "
          ++ goBoolString f2.verified ++ ", False Positive: "
          ++ goBoolString f2.falseP ++ "\n"
          ++ (if f2.description ≠ "" then
                "   Description: " ++ f2.description ++ "\n" else "")
          ++ "\n")
    ∧ ∃ rest, formatFindingsResponse ⟨2, next, prev, [f1, f2]⟩ =
        "Found 2 findings (showing first 2):\n\n" ++ rest := by
  constructor
  · simp [formatFindingsResultPkg, pkgEntriesFrom, pkgFindingEntry,
      String.append_assoc, String.append_empty,
      (show toString (2 : Int) = "2" from by decide),
      (show toString (2 : Nat) = "2" from by decide),
      (show toString (1 : Nat) = "1" from by decide)]
  · refine ⟨internalEntriesFrom 2 0 [f1, f2] ++
      (match next with
       | some _ =>
           "Note: More results available. Use \x27offset\x27 parameter to paginate.\n"
       | none => ""), ?_⟩
    simp [formatFindingsResponse, String.append_assoc,
      (show toString (2 : Int) = "2" from by decide),
      (show toString (2 : Nat) = "2" from by decide)]

/-- C10 counterexample: a numeric string is not rejected — extractFindingID
parses `finding_id = "5"` with `strconv.Atoi` and returns 5, not 0. -/
theorem extractFindingID_accepts_numeric_string :
    extractFindingID [(("finding_id"), GoValue.vstr ("5"))] = 5
    ∧ extractFindingID [(("finding_id"), GoValue.vstr ("5"))] ≠ 0 := by
  decide

/-- C10 amended: a positive float64 id is truncated (1.9 yields 1 and the
detail handler proceeds to the adapter); positive Atoi-parsable strings and
positive Go ints are also accepted and returned as is; non-positive numbers
(float64, parsed string or Go int), non-parsable strings, arguments of any
other type and a missing key yield 0; and the detail handler rejects exactly
the bags whose extracted id is 0. -/
theorem extractFindingID_characterization (args : Args) :
    (∀ v : GoFloat, lookupArg args ("finding_id") = some (GoValue.vnum v) →
      0 < v.num → extractFindingID args = v.toIntTrunc)
    ∧ (∀ v : GoFloat, lookupArg args ("finding_id") = some (GoValue.vnum v) →
      ¬ 0 < v.num → extractFindingID args = 0)
    ∧ (∀ s n, lookupArg args ("finding_id") = some (GoValue.vstr s) →
      goAtoi s = some n → 0 < n → extractFindingID args = n)
    ∧ (∀ s n, lookupArg args ("finding_id") = some (GoValue.vstr s) →
      goAtoi s = some n → ¬ 0 < n → extractFindingID args = 0)
    ∧ (∀ s, lookupArg args ("finding_id") = some (GoValue.vstr s) →
      goAtoi s = none → extractFindingID args = 0)
    ∧ (∀ n : Int, lookupArg args ("finding_id") = some (GoValue.vint n) →
      0 < n → extractFindingID args = n)
    ∧ (∀ n : Int, lookupArg args ("finding_id") = some (GoValue.vint n) →
      ¬ 0 < n → extractFindingID args = 0)
    ∧ (∀ b, lookupArg args ("finding_id") = some (GoValue.vbool b) →
      extractFindingID args = 0)
    ∧ (lookupArg args ("finding_id") = some GoValue.vother →
      extractFindingID args = 0)
    ∧ (lookupArg args ("finding_id") = none → extractFindingID args = 0)
    ∧ (getFindingDetailHandlerAction args = HandlerAction.validationError
        "Error: finding_id parameter is required and must be a positive integer"
      ↔ extractFindingID args = 0)
    ∧ extractFindingID [(("finding_id"), GoValue.vnum onePointNine)] = 1
    ∧ getFindingDetailHandlerAction [(("finding_id"), GoValue.vnum onePointNine)] =
        HandlerAction.adapterCall 1 := by
  refine ⟨fun v hv hp => ?_, fun v hv hp => ?_, fun s n hs ha hp => ?_,
    fun s n hs ha hp => ?_, fun s hs ha => ?_, fun n hn hp => ?_,
    fun n hn hp => ?_, fun b hb => ?_, fun ho => ?_, fun h => ?_, ?_,
    by decide, by decide⟩
  · unfold extractFindingID; rw [hv]; simp [hp]
  · unfold extractFindingID; rw [hv]; simp [hp]
  · unfold extractFindingID; rw [hs]; simp [ha, hp]
  · unfold extractFindingID; rw [hs]; simp [ha, hp]
  · unfold extractFindingID; rw [hs]; simp [ha]
  · unfold extractFindingID; rw [hn]; simp [hp]
  · unfold extractFindingID; rw [hn]; simp [hp]
  · unfold extractFindingID; rw [hb]
  · unfold extractFindingID; rw [ho]
  · unfold extractFindingID; rw [h]
  · by_cases hid : extractFindingID args = 0 <;>
      simp [getFindingDetailHandlerAction, hid]

/-- Witness for C10 amended: the numeric string "7" is accepted and returned
as 7. -/
theorem extractFindingID_characterization_witness :
    extractFindingID [(("finding_id"), GoValue.vstr ("7"))] = 7 :=
  (extractFindingID_characterization
      [(("finding_id"), GoValue.vstr ("7"))]).2.2.1 ("7") 7 (by decide)
    (by decide) (by decide)
